import Mathlib

/-!
Verification of the `yalal` stream-processing library: a shallow embedding in
Lean 4 of the probabilistic sketches implemented in
`src/yalla/streamprocessing/item_counters.py` (HyperLogLog),
`src/yalla/streamprocessing/item_filters.py` (Bloom and Cuckoo filters) and
`src/yalla/hashing/hashers.py` (seeded xxHash wrappers), together with proofs
and refutations of the specification's claims about them.

Conventions used throughout:
* Python integers are modelled by `ℕ` (all quantities involved are
  non-negative); Python float arithmetic is modelled exactly over `ℚ`, with
  `ℝ` used only where the source calls the transcendental `math.log`.
* The third-party hash primitives (`xxh64_intdigest`, `xxh32_intdigest`) are
  not part of this repository; they are modelled as abstract function
  parameters.  Serialized items are likewise an abstract type parameter.
* Mutation of `self` is modelled by explicit state passing on structures whose
  fields mirror the Python attributes.
* Calls to Python's `random` module are modelled by explicit extra inputs
  (the drawn values).
-/

/-! ## Python-level error kinds

The error kinds observable from the sketch operations.  `assertionError`
models a failed `assert` (the spec's ParameterMismatch), `notImplementedError`
models `raise NotImplementedError` (the spec's NotSupported),
`cuckooInsertionFailure` models `raise CuckooInsertionFailure`,
`attributeError` models Python's `AttributeError`, raised e.g. when an
attribute such as `.serialize` is looked up on a plain function object, and
`typeError` models Python's `TypeError`, raised e.g. when a `bitarray` is
indexed with a tuple. -/
inductive PyError where
  | assertionError
  | notImplementedError
  | cuckooInsertionFailure
  | attributeError
  | typeError
deriving DecidableEq, Repr

namespace HyperLogLog

/-- State of `HyperLogLog` (item_counters.py, lines 56-191): the attributes
set by `__init__` and mutated by `add` / `merge_with` / `clear`.
`buckets` holds the per-bucket register values (`np.int8` in the source; the
values stay in `[0, 64]`, so `ℕ` is a faithful model), `bucketActivations`
the `bitarray` of activation flags, and `numberOfActivatedBuckets` the cached
count.  `seed` is the seed handed to the `XxHasher64` in the constructor. -/
structure HLLState where
  numberOfBuckets : ℕ
  bucketPrefixLength : ℕ
  buckets : List ℕ
  bucketActivations : List Bool
  numberOfActivatedBuckets : ℕ
  seed : ℕ
deriving DecidableEq, Repr

/-- `HyperLogLog.HASH_BIT_SIZE`. -/
def hashBitSize : ℕ := 64

/-- `HyperLogLog.__calculate_nearest_power_of_two` (line 95-97):
`math.ceil(requested_number_of_buckets / 2) * 2`. -/
def calculateNearestPowerOfTwo (requestedNumberOfBuckets : ℕ) : ℕ :=
  ⌈(requestedNumberOfBuckets : ℚ) / 2⌉₊ * 2

/-- Modelled from the spec: "let `b` be the smallest power of two ≥ `r`
(clamped to at least 16)" — the value the spec says the constructor should
compute, for comparison with `calculateNearestPowerOfTwo`. -/
def specNumberOfBuckets (requestedNumberOfBuckets : ℕ) : ℕ :=
  max 16 (2 ^ Nat.clog 2 requestedNumberOfBuckets)

/-- `self.__bucket_prefix_length = int(math.log2(self.__number_of_buckets))`
(line 74): the floor of the base-2 logarithm. -/
def bucketPrefixLengthOf (numberOfBuckets : ℕ) : ℕ := Nat.log2 numberOfBuckets

/-- `self.__bucket_prefix_mask = (1 << self.__bucket_prefix_length) - 1`
(line 76). -/
def bucketPrefixMask (s : HLLState) : ℕ := (1 <<< s.bucketPrefixLength) - 1

/-- `HyperLogLog.__calculate_bias_correction_factor` (lines 99-112).  The
float literals `0.673` etc. are modelled as exact rationals. -/
def calculateBiasCorrectionFactor (numberOfBuckets : ℕ) : ℚ :=
  if numberOfBuckets ≤ 16 then 673 / 1000
  else if numberOfBuckets ≤ 32 then 697 / 1000
  else if numberOfBuckets ≤ 64 then 709 / 1000
  else (7213 / 10000) / (1 + (1079 / 1000) / numberOfBuckets)

/-- `self.__small_range_correction_threshold = 2.5 * self.__number_of_buckets`
(line 90). -/
def smallRangeCorrectionThreshold (s : HLLState) : ℚ :=
  (5 / 2) * s.numberOfBuckets

/-- A numpy float64 value as the harmonic-mean computation can produce it:
a finite value (modelled as an exact rational, the convention for all float
arithmetic here), `inf`, `-inf` or `nan`.  Only the operations the source
performs are defined, each following IEEE-754 semantics. -/
inductive NpFloat where
  | finite (q : ℚ)
  | inf
  | negInf
  | nan
deriving DecidableEq, Repr

namespace NpFloat

/-- IEEE addition: `nan` propagates, `inf + (-inf)` is `nan`, an infinity
absorbs finite values. -/
def add : NpFloat → NpFloat → NpFloat
  | nan, _ => nan
  | _, nan => nan
  | inf, negInf => nan
  | negInf, inf => nan
  | inf, _ => inf
  | _, inf => inf
  | negInf, _ => negInf
  | _, negInf => negInf
  | finite a, finite b => finite (a + b)

/-- `np.sum` over float values: fold of `add` from `0.0`. -/
def sum (values : List NpFloat) : NpFloat := values.foldl add (finite 0)

/-- numpy true division `1 / d` of an integer `d`: division by zero yields
`inf` (numpy emits a RuntimeWarning, not an exception; the numerator `1` is
positive), otherwise the exact quotient. -/
def oneDivInt (d : ℤ) : NpFloat :=
  if d = 0 then inf else finite (1 / (d : ℚ))

/-- IEEE division of the finite value `a` by this value: `x / ±inf = 0`,
`a / 0` is `±inf` by the sign of `a` and `nan` for `a = 0`. -/
def divOfRat (a : ℚ) : NpFloat → NpFloat
  | nan => nan
  | inf => finite 0
  | negInf => finite 0
  | finite d =>
    if d = 0 then (if 0 < a then inf else if a < 0 then negInf else nan)
    else finite (a / d)

/-- IEEE multiplication by the finite value `c`: `0 * ±inf` is `nan`. -/
def scale (c : ℚ) : NpFloat → NpFloat
  | nan => nan
  | finite q => finite (c * q)
  | inf => if 0 < c then inf else if c < 0 then negInf else nan
  | negInf => if 0 < c then negInf else if c < 0 then inf else nan

/-- IEEE `>` against the finite value `t`: `nan` compares false. -/
def gtQ : NpFloat → ℚ → Bool
  | finite q, t => decide (t < q)
  | inf, _ => true
  | negInf, _ => false
  | nan, _ => false

end NpFloat

/-- Wrap an integer into the `np.int8` range: the value congruent mod 256
lying in `[-128, 128)`. -/
def int8Wrap (n : ℤ) : ℤ := (n + 128) % 256 - 128

/-- `2 ** self.__buckets` for one register: the registers are stored as
`np.int8` (line 81), so the power is computed in int8 and wraps — exact for
register values `≤ 6`, `-128` at `7`, and `0` for every register `≥ 8`. -/
def int8PowTwo (registerValue : ℕ) : ℤ := int8Wrap (2 ^ registerValue)

/-- `HyperLogLog.__harmonic_mean_of_bucket_estimates` (lines 139-143):
`self.__number_of_activated_buckets / np.sum(1 / (2 ** self.__buckets))`.
The power `2 ** self.__buckets` wraps in int8 (`int8PowTwo`), so a register
value `≥ 8` contributes `1/0 = inf` to the sum and a value of `7`
contributes `1/(-128)`.  Note also that the numerator is the *activated*
bucket count, while the sum runs over all `b` registers (an inactive
register contributes `1 = 2^0`). -/
def harmonicMeanOfBucketEstimates (s : HLLState) : NpFloat :=
  NpFloat.divOfRat (s.numberOfActivatedBuckets : ℚ)
    (NpFloat.sum (s.buckets.map
      (fun registerValue => NpFloat.oneDivInt (int8PowTwo registerValue))))

/-- The raw estimate of `HyperLogLog.unique_count` (line 134):
`self.__bias_correction_factor * self.__number_of_buckets *
self.__harmonic_mean_of_bucket_estimates()` — the finite product
`α·b` times the (possibly non-finite) harmonic mean.  The bias-correction
factor is a pure function of the bucket count, so it is recomputed here
rather than stored. -/
def rawEstimate (s : HLLState) : NpFloat :=
  NpFloat.scale (calculateBiasCorrectionFactor s.numberOfBuckets * s.numberOfBuckets)
    (harmonicMeanOfBucketEstimates s)

/-- The value `HyperLogLog.unique_count` returns: a real number, or one of
the float specials that `rawEstimate` can propagate into the return. -/
inductive HLLFloat where
  | finite (x : ℝ)
  | inf
  | negInf
  | nan

/-- A float value carried unchanged into the return of `unique_count`. -/
noncomputable def NpFloat.toHLLFloat : NpFloat → HLLFloat
  | .finite q => .finite (q : ℝ)
  | .inf => .inf
  | .negInf => .negInf
  | .nan => .nan

/-- `HyperLogLog.__small_range_liner_counting_estimate` (lines 145-151). -/
noncomputable def smallRangeLinearCountingEstimate (s : HLLState) : HLLFloat :=
  let deactivatedBuckets := s.numberOfBuckets - s.numberOfActivatedBuckets
  if deactivatedBuckets = 0 then (rawEstimate s).toHLLFloat
  else
    HLLFloat.finite
      (-(s.numberOfBuckets : ℝ) *
        Real.log ((deactivatedBuckets : ℝ) / (s.numberOfBuckets : ℝ)))

/-- `HyperLogLog.unique_count` (lines 114-137): return the raw estimate when
it exceeds the small-range correction threshold (an IEEE comparison, false
for `nan`), otherwise fall back to the Linear Counting estimate. -/
noncomputable def uniqueCount (s : HLLState) : HLLFloat :=
  if NpFloat.gtQ (rawEstimate s) (smallRangeCorrectionThreshold s) then
    (rawEstimate s).toHLLFloat
  else smallRangeLinearCountingEstimate s

/-- Modelled from the spec: the raw estimate as the spec states it,
`E = α · b · b / Σ_i 2^(−registers[i])`, for comparison with `rawEstimate`. -/
def specRawEstimate (s : HLLState) : ℚ :=
  calculateBiasCorrectionFactor s.numberOfBuckets * s.numberOfBuckets *
    s.numberOfBuckets /
    (s.buckets.map (fun registerValue => 1 / (2 : ℚ) ^ registerValue)).sum

/-- Modelled from the spec: `unique_count` as the spec states it ("If `E > T`,
return `E`. Otherwise compute Linear Counting ..."), built on
`specRawEstimate`; the Linear Counting branch is identical to the code's. -/
noncomputable def specUniqueCount (s : HLLState) : ℝ :=
  if smallRangeCorrectionThreshold s < specRawEstimate s then
    ((specRawEstimate s : ℚ) : ℝ)
  else
    let deactivatedBuckets := s.numberOfBuckets - s.numberOfActivatedBuckets
    if deactivatedBuckets = 0 then ((specRawEstimate s : ℚ) : ℝ)
    else
      -(s.numberOfBuckets : ℝ) *
        Real.log ((deactivatedBuckets : ℝ) / (s.numberOfBuckets : ℝ))

/-- The loop of `HyperLogLog.__calculate_number_of_leading_zeros`
(lines 172-176): count how many low-order zero bits `integer` has
(`while integer & 1 == 0: leading_zeros += 1; integer >>= 1`), for a nonzero
argument. -/
def countLowOrderZeroBits (integer : ℕ) : ℕ :=
  if h : integer = 0 ∨ integer % 2 = 1 then 0
  else countLowOrderZeroBits (integer / 2) + 1
decreasing_by
  push_neg at h
  exact Nat.div_lt_self (Nat.pos_of_ne_zero h.1) one_lt_two

/-- `HyperLogLog.__calculate_number_of_leading_zeros` (lines 169-176). -/
def calculateNumberOfLeadingZeros (bucketPrefixLength : ℕ) (integer : ℕ) : ℕ :=
  if integer = 0 then hashBitSize - bucketPrefixLength
  else countLowOrderZeroBits integer

/-- `HyperLogLog.add` (lines 153-167), after the item has been serialized and
hashed: `hashedItem` is `self.__hasher.hash(self.__serializer(item))`, a pure
function of the item given the hasher's stored seed. -/
def add (s : HLLState) (hashedItem : ℕ) : HLLState :=
  let bucketId := hashedItem &&& bucketPrefixMask s
  let s1 :=
    if s.bucketActivations.getD bucketId false then s
    else
      { s with
        bucketActivations := s.bucketActivations.set bucketId true
        numberOfActivatedBuckets := s.numberOfActivatedBuckets + 1 }
  let hashWithoutBucketPrefix := hashedItem >>> s.bucketPrefixLength
  let leadingZeros :=
    calculateNumberOfLeadingZeros s.bucketPrefixLength hashWithoutBucketPrefix
  { s1 with
    buckets := s1.buckets.set bucketId
      (max (s1.buckets.getD bucketId 0) leadingZeros) }

/-- `HyperLogLog.merge_with` (lines 178-183).  The two `assert` statements
are modelled as `Except.error PyError.assertionError`; note that only the
bucket count and the prefix length are compared — the hash seeds are not. -/
def mergeWith (s other : HLLState) : Except PyError HLLState :=
  if s.numberOfBuckets = other.numberOfBuckets then
    if s.bucketPrefixLength = other.bucketPrefixLength then
      let newActivations :=
        List.zipWith or s.bucketActivations other.bucketActivations
      Except.ok
        { s with
          buckets := List.zipWith max s.buckets other.buckets
          bucketActivations := newActivations
          numberOfActivatedBuckets := newActivations.count true }
    else Except.error PyError.assertionError
  else Except.error PyError.assertionError

end HyperLogLog

namespace BloomFilter

/-- State of `BloomFilter` (item_filters.py, lines 97-179): bit-array size
`m`, number of probe positions `k`, the bit array itself, and the pair of
seeds handed to the two `XxHasher64` instances in the constructor. -/
structure BloomState where
  size : ℕ
  numberOfHashers : ℕ
  bitArray : List Bool
  seeds : ℕ × ℕ
deriving DecidableEq, Repr

/-- `BloomFilter.__calculate_lookup_position` (lines 159-169):
`(base_hashes[0] + hash_number * base_hashes[1] + hash_number ** 2) % self.__size`. -/
def calculateLookupPosition (s : BloomState) (baseHash0 baseHash1 hashNumber : ℕ) : ℕ :=
  (baseHash0 + hashNumber * baseHash1 + hashNumber ^ 2) % s.size

section

variable {Item Bytes : Type}

/-- `BloomFilter.__contains__` (lines 142-150).  `serializer` models the
callable `self.__serializer`, and `hash64` models
`xxh64_intdigest(data, seed)`, so `hash64 s.seeds.1 (serializer item)` is
`self.__hashers[0].hash(serialized_item)`. -/
def contains (serializer : Item → Bytes) (hash64 : ℕ → Bytes → ℕ)
    (s : BloomState) (item : Item) : Bool :=
  let serializedItem := serializer item
  let baseHash0 := hash64 s.seeds.1 serializedItem
  let baseHash1 := hash64 s.seeds.2 serializedItem
  (List.range s.numberOfHashers).all fun hashNumber =>
    s.bitArray.getD (calculateLookupPosition s baseHash0 baseHash1 hashNumber) false

/-- `BloomFilter.add` (lines 152-157): set the bit at every probe position. -/
def add (serializer : Item → Bytes) (hash64 : ℕ → Bytes → ℕ)
    (s : BloomState) (item : Item) : BloomState :=
  let serializedItem := serializer item
  let baseHash0 := hash64 s.seeds.1 serializedItem
  let baseHash1 := hash64 s.seeds.2 serializedItem
  { s with
    bitArray := (List.range s.numberOfHashers).foldl
      (fun bitArray hashNumber =>
        bitArray.set (calculateLookupPosition s baseHash0 baseHash1 hashNumber) true)
      s.bitArray }

end

/-- `BloomFilter.merge_with` (lines 171-173): `assert self.__size ==
other_filter.__size` then bitwise OR.  Only the sizes are compared — the
seeds are not. -/
def mergeWith (s other : BloomState) : Except PyError BloomState :=
  if s.size = other.size then
    Except.ok { s with bitArray := List.zipWith or s.bitArray other.bitArray }
  else Except.error PyError.assertionError

end BloomFilter

/-! ## Hash layer (`src/yalla/hashing/hashers.py`)

The xxHash library functions are abstract parameters; what the repository
contributes is the seed-handling logic of the wrapper classes. -/

/-- Seed selection in `XxHasher64.__init__` (hashers.py, line 14):
`self.__seed = seed if seed else random.randint(0, 2**32)`.  `none` models
passing `seed=None`; `randomDraw` models the value drawn from
`random.randint`.  Because Python's truthiness test treats `0` as false, a
caller-supplied seed of `0` is replaced by the random draw. -/
def xxHasher64InitSeed (seed : Option ℕ) (randomDraw : ℕ) : ℕ :=
  match seed with
  | some s => if s = 0 then randomDraw else s
  | none => randomDraw

/-- `XxHasher64.hash` (hashers.py, lines 16-17):
`xxh64_intdigest(serialized_item, seed=self.__seed)` with the stored seed.
`xxh64Intdigest` is the abstract library function. -/
def xxHasher64Hash {Bytes : Type} (xxh64Intdigest : ℕ → Bytes → ℕ)
    (storedSeed : ℕ) (serializedItem : Bytes) : ℕ :=
  xxh64Intdigest storedSeed serializedItem

/-- Seed selection in `XxHasher32.__init__` (hashers.py, line 22); same
truthiness behaviour as `xxHasher64InitSeed` (only the range of the random
draw differs, which the model leaves abstract). -/
def xxHasher32InitSeed (seed : Option ℕ) (randomDraw : ℕ) : ℕ :=
  match seed with
  | some s => if s = 0 then randomDraw else s
  | none => randomDraw

/-- `XxHasher32.hash` (hashers.py, lines 24-25). -/
def xxHasher32Hash {Bytes : Type} (xxh32Intdigest : ℕ → Bytes → ℕ)
    (storedSeed : ℕ) (serializedItem : Bytes) : ℕ :=
  xxh32Intdigest storedSeed serializedItem

/-- A possible underlying hash family used to witness seed-dependence: the
output depends on the stored seed (as any non-degenerate keyed hash does). -/
def seedRevealingHash : ℕ → ℕ → ℕ := fun storedSeed _ => storedSeed

namespace CuckooFilter

/-- State of `CuckooFilter` (item_filters.py, lines 191-348): the attributes
set by `__init__` and mutated by `add` / `delete` / `clear`.  `bitArray` is
the dense fingerprint table (`__bit_array`), `currentItemsPerBucket` the
per-bucket occupancy list (`__current_items_per_bucket`). -/
structure CuckooState where
  fingerprintSize : ℕ
  maxItemsPerBucket : ℕ
  numberOfBuckets : ℕ
  maxItemRelocations : ℕ
  bitArray : List Bool
  currentItemsPerBucket : List ℕ
deriving DecidableEq, Repr

/-- The hash calls a `CuckooFilter` makes, with the hashers' seeds already
fixed at construction.  `fingerprintingHash` is `XxHasher32(seeds[0]).hash`
on the serialized item; `itemHash` is `XxHasher64(seeds[1]).hash` on the
serialized item; `fingerprintHash` is the same 64-bit hasher as the source
applies it to the *integer* fingerprint (`self.__hasher.hash(fingerprint)`). -/
structure CuckooHashers (Bytes : Type) where
  fingerprintingHash : Bytes → ℕ
  itemHash : Bytes → ℕ
  fingerprintHash : ℕ → ℕ

/-- `self.__bucket_size = self.__max_items_per_bucket *
self.__fingerprint_size` (line 216). -/
def bucketSize (s : CuckooState) : ℕ := s.maxItemsPerBucket * s.fingerprintSize

/-- `self.__fingerprint_mask = (1 << self.__fingerprint_size) - 1`
(line 232). -/
def fingerprintMask (s : CuckooState) : ℕ := (1 <<< s.fingerprintSize) - 1

/-- `CuckooFilter.__fingerprint` (lines 275-278). -/
def fingerprint {Bytes : Type} (H : CuckooHashers Bytes) (s : CuckooState)
    (serializedItem : Bytes) : ℕ :=
  H.fingerprintingHash serializedItem &&& fingerprintMask s

/-- `CuckooFilter.__get_locations` (lines 270-273). -/
def getLocations {Bytes : Type} (H : CuckooHashers Bytes) (s : CuckooState)
    (serializedItem : Bytes) (fp : ℕ) : List ℕ :=
  let location1 := H.itemHash serializedItem % s.numberOfBuckets
  let location2 := (location1 ^^^ H.fingerprintHash fp) % s.numberOfBuckets
  [location1, location2]

/-- `CuckooFilter.__item_bit_coordinates` (lines 328-331). -/
def itemBitCoordinates (s : CuckooState) (bucketId itemId : ℕ) : ℕ × ℕ :=
  let itemStart := bucketId * bucketSize s + itemId * s.fingerprintSize
  (itemStart, itemStart + s.fingerprintSize)

/-- `CuckooFilter.__bit_array_to_int` (lines 316-321):
`integer = (integer << 1) | bit` over the slice, i.e. the slice read as a
big-endian binary numeral. -/
def bitArrayToInt (bits : List Bool) : ℕ :=
  bits.foldl (fun integer bit => (integer <<< 1) ||| (if bit then 1 else 0)) 0

/-- `CuckooFilter.__get_item` (lines 312-314): read the slice
`self.__bit_array[item_start:item_end]` and convert it to an integer. -/
def getItem (s : CuckooState) (bucketId itemId : ℕ) : ℕ :=
  let coordinates := itemBitCoordinates s bucketId itemId
  bitArrayToInt ((s.bitArray.drop coordinates.1).take (coordinates.2 - coordinates.1))

/-- `CuckooFilter.__set_item` (lines 323-326): the write is
`self.__bit_array[item_start, item_end] = bitarray(...)` — the bit array is
indexed with the *tuple* `(item_start, item_end)` (a comma, where a slice
`item_start:item_end` was intended), which `bitarray` rejects with
`TypeError` in every version of the package, before any bit or any
occupancy count changes.  So every write path of the filter raises. -/
def setItem (_s : CuckooState) (_bucketId _itemId _fp : ℕ) :
    Except PyError CuckooState :=
  Except.error PyError.typeError

/-- `CuckooFilter.__get_item_id_in_bucket` (lines 263-268): index of the
first occupied slot of the bucket holding `fp`, scanning slots
`0 .. occupancy-1` in order; `none` models the `-1` return. -/
def getItemIdInBucket (s : CuckooState) (bucketId fp : ℕ) : Option ℕ :=
  (List.range (s.currentItemsPerBucket.getD bucketId 0)).find?
    (fun itemId => getItem s bucketId itemId = fp)

/-- `CuckooFilter.__is_bucket_available` (lines 305-306). -/
def isBucketAvailable (s : CuckooState) (bucketId : ℕ) : Bool :=
  s.currentItemsPerBucket.getD bucketId 0 < s.maxItemsPerBucket

/-- `CuckooFilter.__append_item_to_bucket` (lines 308-310): write the
fingerprint at slot `occupancy` and then increment the bucket's occupancy;
the write (`__set_item`) raises before the increment is reached. -/
def appendItemToBucket (s : CuckooState) (bucketId fp : ℕ) :
    Except PyError CuckooState := do
  let s1 ← setItem s bucketId (s.currentItemsPerBucket.getD bucketId 0) fp
  pure { s1 with
    currentItemsPerBucket := s1.currentItemsPerBucket.set bucketId
      (s1.currentItemsPerBucket.getD bucketId 0 + 1) }

/-- `CuckooFilter.__contains__` (lines 257-261) after serialization: true iff
either candidate bucket's occupied prefix holds the fingerprint. -/
def contains {Bytes : Type} (H : CuckooHashers Bytes) (s : CuckooState)
    (serializedItem : Bytes) : Bool :=
  let fp := fingerprint H s serializedItem
  (getLocations H s serializedItem fp).any fun location =>
    (getItemIdInBucket s location fp).isSome

/-- `CuckooFilter.__swap_with_random_item_from_bucket` (lines 299-303).
`victim` models the draw of `random.randrange(0, occupancy)`; it is reduced
modulo the occupancy so that any input denotes a valid draw (the source
draws uniformly below the occupancy, which is positive whenever this is
reached with a positive `maxItemsPerBucket`).  The victim is read
(`__get_item`, legal) and then the write (`__set_item`) raises. -/
def swapWithRandomItemFromBucket (s : CuckooState) (bucketId fp victim : ℕ) :
    Except PyError (CuckooState × ℕ) := do
  let idToSwap := victim % s.currentItemsPerBucket.getD bucketId 0
  let itemToSwap := getItem s bucketId idToSwap
  let s1 ← setItem s bucketId idToSwap fp
  pure (s1, itemToSwap)

/-- The relocation loop of `CuckooFilter.add` (lines 289-297):
`while item_relocations < self.__max_item_relocations`, with `fuel` the
number of remaining iterations and `victims` the stream of random victim
draws.  Exhausting the bound models `raise CuckooInsertionFailure`; an
exception from the swap propagates out of the loop. -/
def relocateLoop {Bytes : Type} (H : CuckooHashers Bytes) :
    ℕ → CuckooState → ℕ → ℕ → List ℕ → Except PyError CuckooState
  | 0, _, _, _, _ => Except.error PyError.cuckooInsertionFailure
  | fuel + 1, s, currentLocation, fp, victims => do
    let swapped ← swapWithRandomItemFromBucket s currentLocation fp (victims.headD 0)
    let s1 := swapped.1
    let fp1 := swapped.2
    let nextLocation := (currentLocation ^^^ H.fingerprintHash fp1) % s1.numberOfBuckets
    if isBucketAvailable s1 nextLocation then
      appendItemToBucket s1 nextLocation fp1
    else relocateLoop H fuel s1 nextLocation fp1 victims.tail

/-- `CuckooFilter.add` (lines 280-297) after serialization.  `initialChoice`
models `random.choice(locations)` (an index into the two-element list);
`victims` models the subsequent `random.randrange` draws.  Note that when any
candidate bucket has a free slot the source appends to `locations[0]` —
not to the available location — and that every store attempt raises
`TypeError` inside `__set_item`. -/
def add {Bytes : Type} (H : CuckooHashers Bytes) (s : CuckooState)
    (serializedItem : Bytes) (initialChoice : ℕ) (victims : List ℕ) :
    Except PyError CuckooState :=
  let fp := fingerprint H s serializedItem
  let locations := getLocations H s serializedItem fp
  let availableLocations := locations.filter (fun location => isBucketAvailable s location)
  if availableLocations.length > 0 then
    appendItemToBucket s (locations.headD 0) fp
  else
    relocateLoop H s.maxItemRelocations s (locations.getD (initialChoice % 2) 0) fp victims

/-- The body of the `for location in locations` loop of `CuckooFilter.delete`
(lines 343-348): if the bucket's occupied prefix holds the fingerprint,
read the bucket's last occupied slot (legal) and then attempt the overwrite,
which raises inside `__set_item` before the occupancy decrement; if the
fingerprint is not in the bucket, the state passes through unchanged. -/
def removeFingerprintFromBucket (s : CuckooState) (location fp : ℕ) :
    Except PyError CuckooState :=
  match getItemIdInBucket s location fp with
  | none => Except.ok s
  | some itemId => do
    let lastItemInBucket :=
      getItem s location (s.currentItemsPerBucket.getD location 0 - 1)
    let s1 ← setItem s location itemId lastItemInBucket
    pure { s1 with
      currentItemsPerBucket := s1.currentItemsPerBucket.set location
        (s1.currentItemsPerBucket.getD location 0 - 1) }

/-- `CuckooFilter.delete` (lines 339-348) after serialization: the loop runs
over *both* candidate locations, with no early exit after a removal; an
exception from `__set_item` aborts the loop. -/
def delete {Bytes : Type} (H : CuckooHashers Bytes) (s : CuckooState)
    (serializedItem : Bytes) : Except PyError CuckooState :=
  let fp := fingerprint H s serializedItem
  let locations := getLocations H s serializedItem fp
  locations.foldlM (fun current location => removeFingerprintFromBucket current location fp) s

/-- `CuckooFilter.merge_with` (lines 336-337): unconditionally
`raise NotImplementedError`. -/
def mergeWith (_s _other : CuckooState) : Except PyError CuckooState :=
  Except.error PyError.notImplementedError

/-- The state produced by `CuckooFilter.__init__` (lines 202-237) for an
explicitly supplied fingerprint size: `B = ⌊target_total_size / (β·f)⌋`
buckets and occupancy counts all zero (`[0] * B`).  The bit array is
allocated as `bitarray(total_size)` and never cleared by the constructor,
so its contents are arbitrary: `uninitializedBit` supplies the contents of
each of the `B·β·f` positions. -/
def init (fingerprintSize itemsPerBucket targetTotalSize maxItemRelocations : ℕ)
    (uninitializedBit : ℕ → Bool) : CuckooState :=
  let bucketSz := itemsPerBucket * fingerprintSize
  let numberOfBuckets := targetTotalSize / bucketSz
  { fingerprintSize := fingerprintSize
    maxItemsPerBucket := itemsPerBucket
    numberOfBuckets := numberOfBuckets
    maxItemRelocations := maxItemRelocations
    bitArray := (List.range (numberOfBuckets * bucketSz)).map uninitializedBit
    currentItemsPerBucket := List.replicate numberOfBuckets 0 }

end CuckooFilter

/-! ## The serializer plug-point as the Cuckoo filter uses it

`BloomFilter`, `NaiveFilter` and `HyperLogLog` invoke the serializer as a
callable (`self.__serializer(item)`), but every `CuckooFilter` operation
invokes `self.__serializer.serialize(item)` (item_filters.py, lines 258, 281
and 340).  The default `serialize_naively` (lines 37-41) is a plain module
function, which in Python has no `serialize` attribute, so the attribute
lookup raises `AttributeError` before anything else runs. -/

/-- A Python value usable as a serializer: either a plain function (such as
the default `serialize_naively`) or an object exposing a `serialize`
method. -/
inductive PySerializer (Item Bytes : Type) where
  | plainFunction (f : Item → Bytes)
  | methodObject (f : Item → Bytes)

/-- Evaluation of `serializer.serialize(item)`: attribute lookup on a plain
function raises `AttributeError`; on a method object it calls the method. -/
def callSerializeMethod {Item Bytes : Type} :
    PySerializer Item Bytes → Item → Except PyError Bytes
  | PySerializer.plainFunction _, _ => Except.error PyError.attributeError
  | PySerializer.methodObject f, item => Except.ok (f item)

/-- The Cuckoo filter's default serializer
(`serializer if serializer else serialize_naively`, line 222): the plain
function `serialize_naively`, here with `repr`-encoding abstracted as
`reprEncode`. -/
def defaultCuckooSerializer {Item Bytes : Type} (reprEncode : Item → Bytes) :
    PySerializer Item Bytes :=
  PySerializer.plainFunction reprEncode

namespace CuckooFilter

/-- `CuckooFilter.__contains__` (lines 257-261) including its first step
`serialized_item = self.__serializer.serialize(item)`. -/
def containsChecked {Item Bytes : Type} (serializer : PySerializer Item Bytes)
    (H : CuckooHashers Bytes) (s : CuckooState) (item : Item) :
    Except PyError Bool := do
  let serializedItem ← callSerializeMethod serializer item
  pure (contains H s serializedItem)

/-- `CuckooFilter.add` (lines 280-297) including its first step
`serialized_item = self.__serializer.serialize(item)`. -/
def addChecked {Item Bytes : Type} (serializer : PySerializer Item Bytes)
    (H : CuckooHashers Bytes) (s : CuckooState) (item : Item)
    (initialChoice : ℕ) (victims : List ℕ) : Except PyError CuckooState := do
  let serializedItem ← callSerializeMethod serializer item
  add H s serializedItem initialChoice victims

/-- `CuckooFilter.delete` (lines 339-348) including its first step
`serialized_item = self.__serializer.serialize(item)`. -/
def deleteChecked {Item Bytes : Type} (serializer : PySerializer Item Bytes)
    (H : CuckooHashers Bytes) (s : CuckooState) (item : Item) :
    Except PyError CuckooState := do
  let serializedItem ← callSerializeMethod serializer item
  delete H s serializedItem

end CuckooFilter

/-! ## Concrete instances used by the counterexamples and witnesses -/

/-- Hash oracles that send everything to `0` (serialized items are `ℕ`). -/
def zeroHashers : CuckooFilter.CuckooHashers ℕ :=
  { fingerprintingHash := fun _ => 0
    itemHash := fun _ => 0
    fingerprintHash := fun _ => 0 }

/-- Hash oracles under which an item's fingerprint is `1`, its first
candidate bucket is `0` and its second is `1` (for a two-bucket filter). -/
def oneFingerprintHashers : CuckooFilter.CuckooHashers ℕ :=
  { fingerprintingHash := fun _ => 1
    itemHash := fun _ => 0
    fingerprintHash := fun n => n }

/-- A two-bucket Cuckoo state (one slot of one bit per bucket) whose bucket 0
is full and whose bucket 1 is free. -/
def cuckooBucketZeroFullState : CuckooFilter.CuckooState :=
  { fingerprintSize := 1
    maxItemsPerBucket := 1
    numberOfBuckets := 2
    maxItemRelocations := 4
    bitArray := [true, false]
    currentItemsPerBucket := [1, 0] }

/-- Arbitrary memory contents for an uninitialized bit array: all the model
needs is one definite choice, taken here as all-ones to stress that the
constructor never zeroes the array. -/
def garbageBit : ℕ → Bool := fun _ => true

/-- The HyperLogLog state with 16 buckets on which the divergence between
`unique_count` and the spec's formula is exhibited: 15 buckets activated
with register value 6, one bucket never touched.  Register values `≤ 6`
keep `2 ** register` exact even in int8 (`2^6 = 64 < 128`), so no wraparound
is involved at this state and the code's raw estimate is finite. -/
def hllDivergentState : HyperLogLog.HLLState :=
  { numberOfBuckets := 16
    bucketPrefixLength := 4
    buckets := [6, 6, 6, 6, 6, 6, 6, 6, 6, 6, 6, 6, 6, 6, 6, 0]
    bucketActivations :=
      [true, true, true, true, true, true, true, true,
       true, true, true, true, true, true, true, false]
    numberOfActivatedBuckets := 15
    seed := 2 ^ 64 - 59 }

/-- The same HyperLogLog shape but with the 15 activated registers holding
10: here `2 ** 10` wraps to `0` in int8, the sum picks up `inf` summands,
the harmonic mean collapses to `0` and `unique_count` falls through to the
Linear Counting branch. -/
def hllWrappedState : HyperLogLog.HLLState :=
  { hllDivergentState with
    buckets := [10, 10, 10, 10, 10, 10, 10, 10, 10, 10, 10, 10, 10, 10, 10, 0] }

/-- A small HyperLogLog state (16 buckets, prefix length 4) with seed 1. -/
def hllSeedOneState : HyperLogLog.HLLState :=
  { numberOfBuckets := 16
    bucketPrefixLength := 4
    buckets := List.replicate 16 0
    bucketActivations := List.replicate 16 false
    numberOfActivatedBuckets := 0
    seed := 1 }

/-- The same HyperLogLog parameters as `hllSeedOneState` but with seed 2. -/
def hllSeedTwoState : HyperLogLog.HLLState :=
  { hllSeedOneState with seed := 2 }

/-- A small Bloom state (8 bits, 2 probes) with seed pair (1, 2). -/
def bloomSeedOneState : BloomFilter.BloomState :=
  { size := 8
    numberOfHashers := 2
    bitArray := List.replicate 8 false
    seeds := (1, 2) }

/-- The same Bloom parameters as `bloomSeedOneState` but with seeds (3, 4). -/
def bloomSeedTwoState : BloomFilter.BloomState :=
  { bloomSeedOneState with seeds := (3, 4) }

/-! ## Helper lemmas on list updates -/

/-- Reading back the position just written by `List.set` (in range). -/
theorem listGetDSetSelf {α : Type} (l : List α) (i : ℕ) (a d : α)
    (h : i < l.length) : (l.set i a).getD i d = a := by
  simp [List.getD_eq_getElem?_getD, List.getElem?_set_self h]

/-- Setting any position to `true` preserves every position already `true`. -/
theorem listGetDSetTruePreserves (l : List Bool) (p q : ℕ)
    (h : l.getD p false = true) : (l.set q true).getD p false = true := by
  by_cases hpq : p = q
  · subst hpq
    by_cases hp : p < l.length
    · exact listGetDSetSelf l p true false hp
    · rw [List.set_eq_of_length_le (le_of_not_lt hp)]
      exact h
  · rw [List.getD_eq_getElem?_getD, List.getElem?_set_ne (fun hqp => hpq hqp.symm)]
    rw [List.getD_eq_getElem?_getD] at h
    exact h

/-- Folding a sequence of `set _ true` updates preserves list length. -/
theorem foldlSetTrueLength (f : ℕ → ℕ) (l : List ℕ) (arr : List Bool) :
    (l.foldl (fun a j => a.set (f j) true) arr).length = arr.length := by
  induction l generalizing arr with
  | nil => rfl
  | cons x xs ih => rw [List.foldl_cons, ih, List.length_set]

/-- Folding a sequence of `set _ true` updates preserves every position
already `true`. -/
theorem foldlSetTruePreserves (f : ℕ → ℕ) (l : List ℕ) (arr : List Bool)
    (p : ℕ) (h : arr.getD p false = true) :
    (l.foldl (fun a j => a.set (f j) true) arr).getD p false = true := by
  induction l generalizing arr with
  | nil => exact h
  | cons x xs ih => exact ih _ (listGetDSetTruePreserves _ _ _ h)

/-- After folding `set (f j) true` over `l`, the position `f i` is `true`
for every `i ∈ l` that is in range. -/
theorem foldlSetTrueSets (f : ℕ → ℕ) (l : List ℕ) (arr : List Bool) (i : ℕ)
    (hmem : i ∈ l) (hlt : f i < arr.length) :
    (l.foldl (fun a j => a.set (f j) true) arr).getD (f i) false = true := by
  induction l generalizing arr with
  | nil => cases hmem
  | cons x xs ih =>
    rw [List.foldl_cons]
    rcases List.mem_cons.mp hmem with h | h
    · subst h
      exact foldlSetTruePreserves f xs _ _ (listGetDSetSelf _ _ _ _ hlt)
    · exact ih (arr.set (f x) true) h (by rw [List.length_set]; exact hlt)

/-! ## Claim theorems -/

/-- C1: the claim says the constructor sets the number of buckets to the
smallest power of two ≥ the requested count, clamped to at least 16, with
`p = log2(b)`.  The code's `__calculate_nearest_power_of_two` actually
returns `ceil(r/2)*2`: for the requested count 6 it yields 6 — not a power
of two at all, and not clamped to 16 — while the spec's rounding yields 16;
the stored prefix length is then `int(math.log2(6)) = 2`, although no 2-bit
prefix addresses 6 buckets. -/
theorem hll_bucket_count_not_rounded_to_power_of_two :
    HyperLogLog.calculateNearestPowerOfTwo 6 = 6 ∧
    HyperLogLog.specNumberOfBuckets 6 = 16 ∧
    HyperLogLog.bucketPrefixLengthOf 6 = 2 ∧
    ¬ ∃ k : ℕ, 2 ^ k = HyperLogLog.calculateNearestPowerOfTwo 6 := by
  have hsix : HyperLogLog.calculateNearestPowerOfTwo 6 = 6 := by
    norm_num [HyperLogLog.calculateNearestPowerOfTwo]
  refine ⟨hsix, ?_, by norm_num [HyperLogLog.bucketPrefixLengthOf, Nat.log2], ?_⟩
  · have hclog : Nat.clog 2 6 = 3 := by
      rw [Nat.clog_of_two_le (by norm_num) (by norm_num)]
      norm_num
      rw [Nat.clog_of_two_le (by norm_num) (by norm_num)]
      norm_num
      rw [Nat.clog_of_two_le (by norm_num) (by norm_num)]
      norm_num [Nat.clog_one_right]
    rw [HyperLogLog.specNumberOfBuckets, hclog]
    decide
  · rintro ⟨k, hk⟩
    rw [hsix] at hk
    have hk3 : k < 3 := by
      by_contra hge
      push_neg at hge
      have h8 : (2 : ℕ) ^ 3 ≤ 2 ^ k := Nat.pow_le_pow_right (by norm_num) hge
      norm_num at h8
      omega
    interval_cases k <;> norm_num at hk

/-- C2: the claim says `unique_count` computes the raw estimate
`E = α · b · b / Σ_i 2^(−registers[i])`.  The code instead multiplies by the
*activated* bucket count: it computes `α · b · activated_count / Σ`.  On the
16-bucket state with 15 activated registers holding 6 and one untouched
register (no int8 wraparound is involved: `2^6 = 64` is exact), both
branches return their raw estimate, but the code returns
`α·16·15/Σ = 258432/1975 ≈ 130.85` while the spec's formula gives
`α·16·16/Σ = 1378304/9875 ≈ 139.57`. -/
theorem hll_unique_count_uses_activated_count_not_bucket_count :
    HyperLogLog.uniqueCount hllDivergentState =
      HyperLogLog.HLLFloat.finite ((258432 / 1975 : ℚ) : ℝ) ∧
    HyperLogLog.specUniqueCount hllDivergentState = ((1378304 / 9875 : ℚ) : ℝ) ∧
    ((258432 / 1975 : ℚ) : ℝ) ≠ ((1378304 / 9875 : ℚ) : ℝ) := by
  have hraw : HyperLogLog.rawEstimate hllDivergentState =
      HyperLogLog.NpFloat.finite (258432 / 1975) := by
    norm_num [HyperLogLog.rawEstimate, HyperLogLog.calculateBiasCorrectionFactor,
      HyperLogLog.harmonicMeanOfBucketEstimates, HyperLogLog.NpFloat.sum,
      HyperLogLog.NpFloat.add, HyperLogLog.NpFloat.oneDivInt,
      HyperLogLog.NpFloat.divOfRat, HyperLogLog.NpFloat.scale,
      HyperLogLog.int8PowTwo, HyperLogLog.int8Wrap, hllDivergentState]
  have hspec : HyperLogLog.specRawEstimate hllDivergentState = 1378304 / 9875 := by
    norm_num [HyperLogLog.specRawEstimate, HyperLogLog.calculateBiasCorrectionFactor,
      hllDivergentState]
  have hthr : HyperLogLog.smallRangeCorrectionThreshold hllDivergentState = 40 := by
    norm_num [HyperLogLog.smallRangeCorrectionThreshold, hllDivergentState]
  refine ⟨?_, ?_, ?_⟩
  · rw [HyperLogLog.uniqueCount, if_pos, hraw]
    · rfl
    · rw [hraw, hthr]
      simp only [HyperLogLog.NpFloat.gtQ, decide_eq_true_eq]
      norm_num
  · rw [HyperLogLog.specUniqueCount, if_pos, hspec]
    rw [hspec, hthr]
    norm_num
  · rw [ne_eq, Rat.cast_inj]
    norm_num

/-- Fidelity of the wraparound model: with the 15 activated registers
holding 10, `2 ** 10` wraps to `0` in int8, the sum of `1/(2**buckets)`
is `inf`, the harmonic mean and the raw estimate collapse to `0`, the
threshold test fails, and `unique_count` returns the Linear Counting value
`-16·ln(1/16)`. -/
theorem hll_unique_count_wraps_at_large_registers :
    HyperLogLog.uniqueCount hllWrappedState =
      HyperLogLog.HLLFloat.finite (-(16 : ℝ) * Real.log ((1 : ℝ) / (16 : ℝ))) := by
  have hraw : HyperLogLog.rawEstimate hllWrappedState = HyperLogLog.NpFloat.finite 0 := by
    norm_num [HyperLogLog.rawEstimate, HyperLogLog.calculateBiasCorrectionFactor,
      HyperLogLog.harmonicMeanOfBucketEstimates, HyperLogLog.NpFloat.sum,
      HyperLogLog.NpFloat.add, HyperLogLog.NpFloat.oneDivInt,
      HyperLogLog.NpFloat.divOfRat, HyperLogLog.NpFloat.scale,
      HyperLogLog.int8PowTwo, HyperLogLog.int8Wrap, hllWrappedState,
      hllDivergentState]
  rw [HyperLogLog.uniqueCount, if_neg]
  · rw [HyperLogLog.smallRangeLinearCountingEstimate]
    norm_num [hllWrappedState, hllDivergentState]
  · rw [hraw]
    simp only [HyperLogLog.NpFloat.gtQ, decide_eq_true_eq,
      HyperLogLog.smallRangeCorrectionThreshold]
    norm_num [hllWrappedState, hllDivergentState]

/-- Characterization of `HyperLogLog.add`: the if-branching on the activation
flag pushed into the individual fields. -/
theorem hll_add_eq (s : HyperLogLog.HLLState) (hashedItem : ℕ) :
    HyperLogLog.add s hashedItem =
      { s with
        bucketActivations :=
          if s.bucketActivations.getD (hashedItem &&& HyperLogLog.bucketPrefixMask s) false
          then s.bucketActivations
          else s.bucketActivations.set (hashedItem &&& HyperLogLog.bucketPrefixMask s) true
        numberOfActivatedBuckets :=
          if s.bucketActivations.getD (hashedItem &&& HyperLogLog.bucketPrefixMask s) false
          then s.numberOfActivatedBuckets
          else s.numberOfActivatedBuckets + 1
        buckets := s.buckets.set (hashedItem &&& HyperLogLog.bucketPrefixMask s)
          (max (s.buckets.getD (hashedItem &&& HyperLogLog.bucketPrefixMask s) 0)
            (HyperLogLog.calculateNumberOfLeadingZeros s.bucketPrefixLength
              (hashedItem >>> s.bucketPrefixLength))) } := by
  by_cases hA : s.bucketActivations.getD (hashedItem &&& HyperLogLog.bucketPrefixMask s) false
  · simp only [HyperLogLog.add, hA, if_true]
  · simp only [HyperLogLog.add, hA, if_false, Bool.false_eq_true]

/-- C10: `HyperLogLog.add` is idempotent — adding the same item a second
time in succession leaves exactly the state produced by the first `add`
(same registers, same activation flags, same activated count).  The
hypotheses say the two bucket arrays can hold every index the `p`-bit
bucket mask can produce; the constructor guarantees them, since the arrays
have length `b` and the mask has `p = int(math.log2(b))` bits, so
`2^p ≤ b`. -/
theorem hll_add_idempotent (s : HyperLogLog.HLLState) (hashedItem : ℕ)
    (hact : 2 ^ s.bucketPrefixLength ≤ s.bucketActivations.length)
    (hbuck : 2 ^ s.bucketPrefixLength ≤ s.buckets.length) :
    HyperLogLog.add (HyperLogLog.add s hashedItem) hashedItem =
      HyperLogLog.add s hashedItem := by
  have hlt : hashedItem &&& (1 <<< s.bucketPrefixLength - 1) < 2 ^ s.bucketPrefixLength := by
    rw [Nat.one_shiftLeft]
    exact Nat.and_lt_two_pow _ (Nat.sub_lt (Nat.two_pow_pos _) one_pos)
  have hbidActs : hashedItem &&& (1 <<< s.bucketPrefixLength - 1) < s.bucketActivations.length :=
    lt_of_lt_of_le hlt hact
  have hbidBuckets : hashedItem &&& (1 <<< s.bucketPrefixLength - 1) < s.buckets.length :=
    lt_of_lt_of_le hlt hbuck
  rw [hll_add_eq s hashedItem, hll_add_eq]
  simp only [HyperLogLog.bucketPrefixMask]
  by_cases hA : s.bucketActivations.getD (hashedItem &&& (1 <<< s.bucketPrefixLength - 1)) false
  · simp only [hA, if_true]
    rw [listGetDSetSelf s.buckets _ _ 0 hbidBuckets, List.set_set, max_assoc, max_self]
  · simp only [hA, Bool.false_eq_true, if_false]
    have hTrue : (s.bucketActivations.set
        (hashedItem &&& (1 <<< s.bucketPrefixLength - 1)) true).getD
        (hashedItem &&& (1 <<< s.bucketPrefixLength - 1)) false = true :=
      listGetDSetSelf s.bucketActivations _ true false hbidActs
    simp only [hTrue, if_true]
    rw [listGetDSetSelf s.buckets _ _ 0 hbidBuckets, List.set_set, max_assoc, max_self]

/-- Witness for `hll_add_idempotent`: the hypotheses hold and the
conclusion follows at a concrete 16-bucket state and a concrete hash. -/
theorem hll_add_idempotent_witness :
    (2 ^ hllSeedOneState.bucketPrefixLength ≤ hllSeedOneState.bucketActivations.length ∧
      2 ^ hllSeedOneState.bucketPrefixLength ≤ hllSeedOneState.buckets.length) ∧
    HyperLogLog.add (HyperLogLog.add hllSeedOneState 12345) 12345 =
      HyperLogLog.add hllSeedOneState 12345 :=
  ⟨⟨by decide, by decide⟩,
    hll_add_idempotent hllSeedOneState 12345 (by decide) (by decide)⟩

/-- After `BloomFilter.add`, every probe position of the added item is set:
the positions are below `m` (they are residues mod `m`), and the fold in
`add` sets each of them. -/
theorem bloom_contains_after_add {Item Bytes : Type} (serializer : Item → Bytes)
    (hash64 : ℕ → Bytes → ℕ) (s : BloomFilter.BloomState) (item : Item)
    (hlen : s.bitArray.length = s.size) (hsize : 0 < s.size) :
    BloomFilter.contains serializer hash64 (BloomFilter.add serializer hash64 s item) item
      = true := by
  simp only [BloomFilter.contains, BloomFilter.add, List.all_eq_true]
  intro hashNumber hmem
  apply foldlSetTrueSets
  · exact hmem
  · rw [hlen]
    exact Nat.mod_lt _ hsize

/-- `BloomFilter.add` only sets bits, so it preserves a positive
`__contains__` answer for any other item. -/
theorem bloom_contains_mono {Item Bytes : Type} (serializer : Item → Bytes)
    (hash64 : ℕ → Bytes → ℕ) (s : BloomFilter.BloomState) (item other : Item)
    (h : BloomFilter.contains serializer hash64 s item = true) :
    BloomFilter.contains serializer hash64 (BloomFilter.add serializer hash64 s other) item
      = true := by
  simp only [BloomFilter.contains, BloomFilter.add, List.all_eq_true] at h ⊢
  intro hashNumber hmem
  exact foldlSetTruePreserves _ _ _ _ (h hashNumber hmem)

/-- C8: the Bloom filter has no false negatives.  Starting from any state
`s` (in particular one reached by any earlier `add` calls), after
`add(item)` followed by any further sequence of `add` calls with no
intervening `clear`, `item in filter` returns `true`.  The hypotheses — the
bit array has length `m` and `m > 0` — hold for every constructed filter
(`__init__` allocates `bitarray(m)` with `m = ceil(-n·ln p / ln2²) ≥ 1`). -/
theorem bloom_filter_no_false_negatives {Item Bytes : Type} (serializer : Item → Bytes)
    (hash64 : ℕ → Bytes → ℕ) (s : BloomFilter.BloomState) (item : Item)
    (laterItems : List Item)
    (hlen : s.bitArray.length = s.size) (hsize : 0 < s.size) :
    BloomFilter.contains serializer hash64
      (laterItems.foldl (BloomFilter.add serializer hash64)
        (BloomFilter.add serializer hash64 s item))
      item = true := by
  have hstart := bloom_contains_after_add serializer hash64 s item hlen hsize
  generalize BloomFilter.add serializer hash64 s item = t at hstart ⊢
  induction laterItems generalizing t with
  | nil => exact hstart
  | cons y ys ih =>
    rw [List.foldl_cons]
    exact ih _ (bloom_contains_mono serializer hash64 t item y hstart)

/-- Witness for `bloom_filter_no_false_negatives` at a concrete filter,
serializer, hash function and add sequence. -/
theorem bloom_filter_no_false_negatives_witness :
    (bloomSeedOneState.bitArray.length = bloomSeedOneState.size ∧ 0 < bloomSeedOneState.size) ∧
    BloomFilter.contains (fun n : ℕ => n) (fun seed b => seed + b)
      (([3, 4, 5] : List ℕ).foldl (BloomFilter.add (fun n : ℕ => n) (fun seed b => seed + b))
        (BloomFilter.add (fun n : ℕ => n) (fun seed b => seed + b) bloomSeedOneState 7))
      7 = true :=
  ⟨⟨by decide, by decide⟩,
    bloom_filter_no_false_negatives (fun n : ℕ => n) (fun seed b => seed + b)
      bloomSeedOneState 7 [3, 4, 5] (by decide) (by decide)⟩

/-- C3: with the default serializer, every Cuckoo filter runtime operation
(`__contains__`, `add`, `delete`) raises `AttributeError` — an error kind
outside the specified set {ParameterMismatch, NotSupported,
InsertionFailure} — because each begins with
`self.__serializer.serialize(item)` and the default serializer is the plain
function `serialize_naively`, which has no `serialize` attribute.  The
repository's own Cuckoo tests (`test_should_add_new_item` etc.) exercise
exactly these calls. -/
theorem cuckoo_operations_fail_with_attribute_error {Item Bytes : Type}
    (reprEncode : Item → Bytes) (H : CuckooFilter.CuckooHashers Bytes)
    (s : CuckooFilter.CuckooState) (item : Item) (initialChoice : ℕ)
    (victims : List ℕ) :
    CuckooFilter.containsChecked (defaultCuckooSerializer reprEncode) H s item =
        Except.error PyError.attributeError ∧
      CuckooFilter.addChecked (defaultCuckooSerializer reprEncode) H s item
          initialChoice victims =
        Except.error PyError.attributeError ∧
      CuckooFilter.deleteChecked (defaultCuckooSerializer reprEncode) H s item =
        Except.error PyError.attributeError ∧
      PyError.attributeError ≠ PyError.assertionError ∧
      PyError.attributeError ≠ PyError.notImplementedError ∧
      PyError.attributeError ≠ PyError.cuckooInsertionFailure :=
  ⟨rfl, rfl, rfl, by decide, by decide, by decide⟩

/-- Witness for `cuckoo_operations_fail_with_attribute_error` at a concrete
filter, hashers and item. -/
theorem cuckoo_operations_fail_with_attribute_error_witness :
    CuckooFilter.containsChecked (defaultCuckooSerializer (fun n : ℕ => n)) zeroHashers
        (CuckooFilter.init 1 1 2 4 garbageBit) 0 = Except.error PyError.attributeError ∧
      CuckooFilter.addChecked (defaultCuckooSerializer (fun n : ℕ => n)) zeroHashers
          (CuckooFilter.init 1 1 2 4 garbageBit) 0 0 [] = Except.error PyError.attributeError ∧
      CuckooFilter.deleteChecked (defaultCuckooSerializer (fun n : ℕ => n)) zeroHashers
          (CuckooFilter.init 1 1 2 4 garbageBit) 0 = Except.error PyError.attributeError ∧
      PyError.attributeError ≠ PyError.assertionError ∧
      PyError.attributeError ≠ PyError.notImplementedError ∧
      PyError.attributeError ≠ PyError.cuckooInsertionFailure :=
  cuckoo_operations_fail_with_attribute_error (fun n : ℕ => n) zeroHashers
    (CuckooFilter.init 1 1 2 4 garbageBit) 0 0 []

/-- C4: the claim says that whenever a candidate bucket has a free slot,
`add` stores the fingerprint into a candidate bucket with a free slot.  The
code does neither: with bucket 0 full (occupancy 1 = β) and bucket 1 free,
`add` targets `locations[0]` (the full bucket, per the source's
`self.__append_item_to_bucket(locations[0], fingerprint)`), and the write
raises `TypeError` inside `__set_item` (tuple index) before any bit or
occupancy changes — so nothing is ever stored at all. -/
theorem cuckoo_add_raises_type_error_despite_free_bucket :
    CuckooFilter.isBucketAvailable cuckooBucketZeroFullState 0 = false ∧
    CuckooFilter.isBucketAvailable cuckooBucketZeroFullState 1 = true ∧
    cuckooBucketZeroFullState.maxItemsPerBucket = 1 ∧
    CuckooFilter.add oneFingerprintHashers cuckooBucketZeroFullState 0 0 [] =
      Except.error PyError.typeError :=
  ⟨by decide, by decide, by decide, rfl⟩

/-- C7 (counterexample): merging two HyperLogLogs — or two Bloom filters —
whose structural sizes agree but whose hash seeds differ succeeds without
any error, although the claim says a seed mismatch surfaces a
ParameterMismatch failure. -/
theorem merge_with_accepts_mismatched_seeds :
    (HyperLogLog.mergeWith hllSeedOneState hllSeedTwoState).toOption.isSome = true ∧
    hllSeedOneState.seed ≠ hllSeedTwoState.seed ∧
    hllSeedOneState.numberOfBuckets = hllSeedTwoState.numberOfBuckets ∧
    (BloomFilter.mergeWith bloomSeedOneState bloomSeedTwoState).toOption.isSome = true ∧
    bloomSeedOneState.seeds ≠ bloomSeedTwoState.seeds ∧
    bloomSeedOneState.size = bloomSeedTwoState.size := by decide

/-- C7 (amended): the merge assertions check exactly the structural
parameters — `HyperLogLog.merge_with` fails iff the bucket counts or the
bucket prefix lengths differ, and `BloomFilter.merge_with` fails iff the
bit-array sizes differ; the hash seeds are never compared. -/
theorem merge_with_checks_structural_parameters_only :
    (∀ s other : HyperLogLog.HLLState,
        (HyperLogLog.mergeWith s other).toOption.isSome = true ↔
          s.numberOfBuckets = other.numberOfBuckets ∧
            s.bucketPrefixLength = other.bucketPrefixLength) ∧
    (∀ s other : BloomFilter.BloomState,
        (BloomFilter.mergeWith s other).toOption.isSome = true ↔
          s.size = other.size) := by
  constructor
  · intro s other
    unfold HyperLogLog.mergeWith
    split_ifs with h1 h2 <;> simp [Except.toOption, *]
  · intro s other
    unfold BloomFilter.mergeWith
    split_ifs with h1 <;> simp [Except.toOption, *]

/-- Witness for `merge_with_checks_structural_parameters_only` at concrete
sketches. -/
theorem merge_with_checks_structural_parameters_only_witness :
    (HyperLogLog.mergeWith hllSeedOneState hllSeedOneState).toOption.isSome = true ↔
      hllSeedOneState.numberOfBuckets = hllSeedOneState.numberOfBuckets ∧
        hllSeedOneState.bucketPrefixLength = hllSeedOneState.bucketPrefixLength :=
  merge_with_checks_structural_parameters_only.1 hllSeedOneState hllSeedOneState

/-- C9 (counterexample): a hasher constructed with seed `0` is *not* a pure
function of `(seed, bytes)`: because `0` is falsy in Python, `__init__`
silently replaces it by a random draw, so two `XxHasher64(0)` instances
store different seeds and (for a seed-sensitive underlying hash family)
produce different outputs on the same input. -/
theorem hasher_with_zero_seed_not_deterministic :
    xxHasher64InitSeed (some 0) 1 ≠ xxHasher64InitSeed (some 0) 2 ∧
    xxHasher64Hash seedRevealingHash (xxHasher64InitSeed (some 0) 1) 0 ≠
      xxHasher64Hash seedRevealingHash (xxHasher64InitSeed (some 0) 2) 0 := by decide

/-- C9 (amended): for every *nonzero* caller-supplied seed, both hashers
are deterministic pure functions of `(seed, bytes)`: the stored seed equals
the supplied seed regardless of the random draw, so two instances of the
same width built with the same seed agree on every input. -/
theorem hashers_deterministic_for_nonzero_seeds {Bytes64 Bytes32 : Type}
    (xxh64Intdigest : ℕ → Bytes64 → ℕ) (xxh32Intdigest : ℕ → Bytes32 → ℕ)
    (seed randomDraw1 randomDraw2 : ℕ) (data64 : Bytes64) (data32 : Bytes32)
    (hseed : seed ≠ 0) :
    xxHasher64Hash xxh64Intdigest (xxHasher64InitSeed (some seed) randomDraw1) data64 =
      xxHasher64Hash xxh64Intdigest (xxHasher64InitSeed (some seed) randomDraw2) data64 ∧
    xxHasher32Hash xxh32Intdigest (xxHasher32InitSeed (some seed) randomDraw1) data32 =
      xxHasher32Hash xxh32Intdigest (xxHasher32InitSeed (some seed) randomDraw2) data32 := by
  simp [xxHasher64Hash, xxHasher32Hash, xxHasher64InitSeed, xxHasher32InitSeed, hseed]

/-- Witness for `hashers_deterministic_for_nonzero_seeds` at seed `5` and
concrete random draws. -/
theorem hashers_deterministic_for_nonzero_seeds_witness :
    (5 : ℕ) ≠ 0 ∧
    (xxHasher64Hash seedRevealingHash (xxHasher64InitSeed (some 5) 1) 0 =
        xxHasher64Hash seedRevealingHash (xxHasher64InitSeed (some 5) 2) 0 ∧
      xxHasher32Hash seedRevealingHash (xxHasher32InitSeed (some 5) 1) 0 =
        xxHasher32Hash seedRevealingHash (xxHasher32InitSeed (some 5) 2) 0) :=
  ⟨by decide,
    hashers_deterministic_for_nonzero_seeds seedRevealingHash seedRevealingHash
      5 1 2 0 0 (by decide)⟩
